import Mathlib

/-!
Shallow embedding of the KWin script `contents/code/main.js`
(`class LastUsedDesktops`) for checking its natural-language specification.

The script keeps a most-recently-used history of virtual-desktop identifiers
and reacts to three kinds of events: the host's `currentDesktopChanged`
signal, the host's `desktopsChanged` signal, and two shortcut handlers
(`handleHistoryNavigation` for the previous-desktop walk,
`handleDirectDesktopNavigation` for the numbered toggle shortcuts).

Desktop identifiers are opaque strings; the host workspace is modelled by a
`World` holding the current desktop list and the active desktop's id.  The
mutable fields of the JS class become the record `EngineState`; every JS
method becomes a pure function from (World, EngineState, arguments) to the
updated state, plus the issued switch command (`Option String`) where the
method may call `navigateToDesktop`.
-/

/-- One entry of `workspace.desktops`.  `x11DesktopNumber` is the host slot
hint; `none` or `some 0` model the JS-falsy cases of
`desktop.x11DesktopNumber || i + 1`. -/
structure Desktop where
  id : String
  x11DesktopNumber : Option Nat
deriving DecidableEq

/-- The host `workspace` object: the current desktop list and the id of
`workspace.currentDesktop`. -/
structure World where
  desktops : List Desktop
  currentDesktopId : String
deriving DecidableEq

/-- The mutable fields of the `LastUsedDesktops` class. -/
structure EngineState where
  /-- `this.desktopNumberMap`: x11DesktopNumber to desktop id. -/
  desktopNumberMap : Nat → Option String
  /-- `this.desktopHistory`: ids in usage order, most recent last. -/
  desktopHistory : List String
  /-- `this.historyIndex`: current position during a walk. -/
  historyIndex : Nat
  /-- `this.lastTriggerTime`: timestamp of the last shortcut trigger. -/
  lastTriggerTime : Nat
  /-- `this.navigationBuffer`: id buffered during a navigation sequence. -/
  navigationBuffer : Option String

/-- `this.continuationDelay` (ms), fixed to 500 in the constructor. -/
def continuationDelay : Nat := 500

/-- The slot computed for the desktop at 0-based position `i`:
`desktop.x11DesktopNumber || i + 1`. -/
def slotOfDesktop (d : Desktop) (i : Nat) : Nat :=
  match d.x11DesktopNumber with
  | some n => if n = 0 then i + 1 else n
  | none => i + 1

/-- The loop body of `buildDesktopNumberMap`, position index made explicit. -/
def buildMapAux : List Desktop → Nat → (Nat → Option String) → (Nat → Option String)
  | [], _, m => m
  | d :: rest, i, m =>
      buildMapAux rest (i + 1) (fun k => if k = slotOfDesktop d i then some d.id else m k)

/-- `buildDesktopNumberMap()`: rebuilds `this.desktopNumberMap` from
`workspace.desktops`, starting from the empty map. -/
def buildDesktopNumberMap (desktops : List Desktop) : Nat → Option String :=
  buildMapAux desktops 0 (fun _ => none)

/-- `desktopExists(desktopId)` for a non-null string argument:
`workspace.desktops.some(d => d && d.id === desktopId)`. -/
def desktopExistsS (w : World) (desktopId : String) : Bool :=
  w.desktops.any (fun d => d.id == desktopId)

/-- `desktopExists` applied to a possibly-null value (e.g. the result of
`getDesktopFromHistory`); `null` matches no desktop id. -/
def desktopExists (w : World) (desktopId : Option String) : Bool :=
  match desktopId with
  | none => false
  | some s => desktopExistsS w s

/-- `navigateToDesktop(desktopId)`: finds the desktop and assigns
`workspace.currentDesktop`; otherwise only logs.  The engine fields are not
touched by this method, which the explicit `EngineState` pass-through makes
visible. -/
def navigateToDesktop (w : World) (s : EngineState) (desktopId : Option String) :
    World × EngineState :=
  match desktopId with
  | none => (w, s)
  | some tid =>
    match w.desktops.find? (fun d => d.id == tid) with
    | none => (w, s)
    | some d => ({ w with currentDesktopId := d.id }, s)

/-- `addToHistory(desktopId)`: splice out the first prior occurrence
(`indexOf`/`splice`), then push to the back. -/
def addToHistory (history : List String) (desktopId : String) : List String :=
  history.erase desktopId ++ [desktopId]

/-- The `currentDesktopChanged` handler: `this.addToHistory(desktop.id)`. -/
def onCurrentDesktopChanged (s : EngineState) (desktopId : String) : EngineState :=
  { s with desktopHistory := addToHistory s.desktopHistory desktopId }

/-- `cleanupHistory()`: keep only ids of desktops that still exist. -/
def cleanupHistory (w : World) (history : List String) : List String :=
  history.filter (fun desktopId => desktopExistsS w desktopId)

/-- The `desktopsChanged` handler: rebuild the number map, then clean up the
history. -/
def onDesktopsChanged (w : World) (s : EngineState) : EngineState :=
  { s with desktopNumberMap := buildDesktopNumberMap w.desktops,
           desktopHistory := cleanupHistory w s.desktopHistory }

/-- `getDesktopFromHistory(index)`: `null` when there is not enough history,
else the entry at `length - 1 - index`.  (The JS `historyIndex < 0` check is
dead code: under the length guard the offset is never negative.) -/
def getDesktopFromHistory (history : List String) (index : Nat) : Option String :=
  if history.length < index + 1 then none
  else history[history.length - 1 - index]?

/-- `commitNavigationBuffer()`: append the buffered id unless it is already
the last entry, clear the buffer, reset `historyIndex` to 0. -/
def commitNavigationBuffer (s : EngineState) : EngineState :=
  let s1 :=
    match s.navigationBuffer with
    | none => s
    | some buffered =>
      if s.desktopHistory.getLast? = some buffered then
        { s with navigationBuffer := none }
      else
        { s with desktopHistory := addToHistory s.desktopHistory buffered,
                 navigationBuffer := none }
  { s1 with historyIndex := 0 }

/-- `handleHistoryNavigation()` at time `now`.  Returns the new engine state,
the new world, and the issued switch command (`none` when `desktopExists`
rejected the target and no navigation happened).  `isContinuation()` is
inlined: it compares `now - lastTriggerTime` with the delay and then stores
`now` (JS negative differences and Nat-truncated differences both compare
`< 500` the same way for a monotone clock). -/
def handleHistoryNavigation (w : World) (s : EngineState) (now : Nat) :
    EngineState × World × Option String :=
  let currentDesktopId := w.currentDesktopId
  let s1 := { s with desktopHistory := cleanupHistory w s.desktopHistory }
  let isContinuing : Bool := decide (now - s1.lastTriggerTime < continuationDelay)
  let s2 := { s1 with lastTriggerTime := now }
  let step :=
    if isContinuing then
      let s3 := { s2 with historyIndex := s2.historyIndex + 1 }
      (s3, getDesktopFromHistory s3.desktopHistory s3.historyIndex)
    else
      let s3 := commitNavigationBuffer s2
      let s4 :=
        if currentDesktopId ∈ s3.desktopHistory then s3
        else { s3 with desktopHistory := addToHistory s3.desktopHistory currentDesktopId }
      let s5 := { s4 with historyIndex := 1 }
      (s5, getDesktopFromHistory s5.desktopHistory s5.historyIndex)
  let s6 := step.1
  let target := step.2
  if desktopExists w target then
    let wn := navigateToDesktop w s6 target
    ({ wn.2 with navigationBuffer := target }, wn.1, target)
  else
    (s6, w, none)

/-- The toggle's backward scan: the most recent history entry that differs
from the current desktop and still exists. -/
def findPreviousDesktop (w : World) (history : List String) (currentDesktopId : String) :
    Option String :=
  history.reverse.find?
    (fun desktopId => desktopId != currentDesktopId && desktopExistsS w desktopId)

/-- `handleDirectDesktopNavigation(desktopNumber)`.  Returns the new engine
state, the new world, and the issued switch command.  The JS guard
`!targetDesktopId` is falsy for an absent entry and for the empty string;
likewise the toggle branch's `if (previousDesktopId)` guard is falsy both
for `null` (no suitable entry found) and for the empty string, so a found
`""` is declined exactly like an absent one. -/
def handleDirectDesktopNavigation (w : World) (s : EngineState) (desktopNumber : Nat) :
    EngineState × World × Option String :=
  match s.desktopNumberMap desktopNumber with
  | none => (s, w, none)
  | some targetDesktopId =>
    if targetDesktopId = "" then (s, w, none)
    else if !desktopExistsS w targetDesktopId then
      ({ s with desktopNumberMap := buildDesktopNumberMap w.desktops }, w, none)
    else
      let currentDesktopId := w.currentDesktopId
      if currentDesktopId = targetDesktopId then
        match findPreviousDesktop w s.desktopHistory currentDesktopId with
        | some previousDesktopId =>
          if previousDesktopId = "" then (s, w, none)
          else
            let wn := navigateToDesktop w s (some previousDesktopId)
            (wn.2, wn.1, some previousDesktopId)
        | none => (s, w, none)
      else
        let wn := navigateToDesktop w s (some targetDesktopId)
        (wn.2, wn.1, some targetDesktopId)

/-- Constructor state: map built from the current desktops, history holding
only the startup desktop, all counters zeroed. -/
def initialEngineState (w : World) : EngineState :=
  { desktopNumberMap := buildDesktopNumberMap w.desktops
    desktopHistory := [w.currentDesktopId]
    historyIndex := 0
    lastTriggerTime := 0
    navigationBuffer := none }

/-- One previous-desktop press followed by the confirming
`currentDesktopChanged` event when a switch command was issued (the claims'
"each issued switch is confirmed by a desktop-changed event"). -/
def prevRound (now : Nat) (ws : World × EngineState) :
    (World × EngineState) × Option String :=
  let r := handleHistoryNavigation ws.1 ws.2 now
  match r.2.2 with
  | some id => ((r.2.1, onCurrentDesktopChanged r.1 id), some id)
  | none => ((r.2.1, r.1), none)

/-- One toggle press followed by the confirming `currentDesktopChanged`
event when a switch command was issued. -/
def toggleRound (desktopNumber : Nat) (ws : World × EngineState) :
    World × EngineState :=
  let r := handleDirectDesktopNavigation ws.1 ws.2 desktopNumber
  match r.2.2 with
  | some id => (r.2.1, onCurrentDesktopChanged r.1 id)
  | none => (r.2.1, r.1)

/-! ## Shared lemmas -/

/-- `navigateToDesktop` never touches the engine state. -/
theorem navigateToDesktop_snd (w : World) (s : EngineState) (t : Option String) :
    (navigateToDesktop w s t).2 = s := by
  cases t with
  | none => rfl
  | some tid =>
      simp only [navigateToDesktop]
      cases h : w.desktops.find? (fun d => d.id == tid) <;> simp [h]

/-- When the target exists, `navigateToDesktop` switches the active desktop
to exactly the requested id. -/
theorem navigateToDesktop_exists (w : World) (s : EngineState) (t : String)
    (h : desktopExistsS w t = true) :
    navigateToDesktop w s (some t) = ({ w with currentDesktopId := t }, s) := by
  obtain ⟨dd, hmem, hdd⟩ := List.any_eq_true.mp h
  have hex : ∃ x, x ∈ w.desktops ∧ (fun d => d.id == t) x = true := ⟨dd, hmem, hdd⟩
  obtain ⟨x, hx⟩ : ∃ y, w.desktops.find? (fun d => d.id == t) = some y := by
    obtain ⟨y, hy⟩ := Option.isSome_iff_exists.mp (List.find?_isSome.mpr hex)
    exact ⟨y, hy⟩
  have hxt : x.id = t := by
    have := List.find?_some hx
    exact eq_of_beq this
  simp only [navigateToDesktop]
  rw [hx]
  simp [hxt]

/-- `desktopExistsS` only reads the desktop list, so reassigning the current
desktop does not change it. -/
theorem desktopExistsS_setCurrent (w : World) (x y : String) :
    desktopExistsS { w with currentDesktopId := x } y = desktopExistsS w y := rfl

/-- A history whose entries all still exist survives `cleanupHistory`
unchanged. -/
theorem cleanupHistory_of_all_exist (w : World) (h : List String)
    (hall : ∀ x ∈ h, desktopExistsS w x = true) :
    cleanupHistory w h = h :=
  List.filter_eq_self.mpr hall

/-- `addToHistory` preserves freedom from duplicates. -/
theorem addToHistory_nodup {h : List String} (hn : h.Nodup) (id : String) :
    (addToHistory h id).Nodup := by
  refine List.Nodup.append (hn.erase id) (List.nodup_singleton id) ?_
  intro x hx hx'
  rw [List.mem_singleton] at hx'
  subst hx'
  exact hn.not_mem_erase hx

/-- Folding `addToHistory` over any id sequence preserves freedom from
duplicates. -/
theorem foldl_addToHistory_nodup (ids : List String) :
    ∀ h : List String, h.Nodup → (ids.foldl addToHistory h).Nodup := by
  induction ids with
  | nil => intro h hn; exact hn
  | cons id rest ih =>
      intro h hn
      exact ih (addToHistory h id) (addToHistory_nodup hn id)

/-! ## Claim theorems -/

/-- C3.  No-duplicates invariant: starting from the single-entry startup
history, every sequence of `addToHistory` calls (the `recordVisit`s of the
spec) keeps the history free of repeated identifiers, and on a duplicate-free
history `addToHistory id` removes the prior occurrence of `id` (it filters
`id` out) and then appends `id` at the most-recently-used back. -/
theorem history_nodup_invariant :
    (∀ (ids : List String) (x : String), (ids.foldl addToHistory [x]).Nodup) ∧
    (∀ (h : List String) (id : String), h.Nodup →
      addToHistory h id = h.filter (fun y => y != id) ++ [id]) := by
  constructor
  · intro ids x
    exact foldl_addToHistory_nodup ids [x] (List.nodup_singleton x)
  · intro h id hn
    unfold addToHistory
    rw [hn.erase_eq_filter]

/-- C3 witness: a concrete visit sequence with a revisit stays duplicate
free, and a concrete reinsertion filters out the prior occurrence. -/
theorem history_nodup_invariant_witness :
    ((["d2", "d3", "d2"].foldl addToHistory ["d1"]).Nodup) ∧
    (addToHistory ["d1", "d2"] "d1"
      = ["d1", "d2"].filter (fun y => y != "d1") ++ ["d1"]) :=
  ⟨history_nodup_invariant.1 ["d2", "d3", "d2"] "d1",
   history_nodup_invariant.2 ["d1", "d2"] "d1" (by decide)⟩

/-- C7.  Unknown slot is a no-op: when the slot has no entry in
`desktopNumberMap`, the toggle handler returns with the engine state, the
world (hence the current desktop and history) unchanged and issues no switch
command. -/
theorem unknown_slot_noop (w : World) (s : EngineState) (desktopNumber : Nat)
    (h : s.desktopNumberMap desktopNumber = none) :
    handleDirectDesktopNavigation w s desktopNumber = (s, w, none) := by
  unfold handleDirectDesktopNavigation
  rw [h]

/-- C7 witness: slot 7 is unmapped in a two-desktop world and the toggle
handler does nothing. -/
theorem unknown_slot_noop_witness :
    handleDirectDesktopNavigation
      ⟨[⟨"d1", some 1⟩, ⟨"d2", some 2⟩], "d1"⟩
      (initialEngineState ⟨[⟨"d1", some 1⟩, ⟨"d2", some 2⟩], "d1"⟩) 7
    = (initialEngineState ⟨[⟨"d1", some 1⟩, ⟨"d2", some 2⟩], "d1"⟩,
       ⟨[⟨"d1", some 1⟩, ⟨"d2", some 2⟩], "d1"⟩, none) :=
  unknown_slot_noop _ _ 7 (by decide)

/-- C10.  Failed switch is atomic: for every target identifier that matches
no desktop in the current set (the null target included), `navigateToDesktop`
returns the world and the engine state unchanged — active desktop, history,
navigation buffer and history index are all untouched. -/
theorem navigateToDesktop_missing_noop (w : World) (s : EngineState)
    (target : Option String)
    (h : ∀ d ∈ w.desktops, some d.id ≠ target) :
    navigateToDesktop w s target = (w, s) := by
  cases target with
  | none => rfl
  | some tid =>
      have hfind : w.desktops.find? (fun d => d.id == tid) = none := by
        refine List.find?_eq_none.mpr ?_
        intro d hd
        have := h d hd
        simp only [ne_eq, Option.some.injEq] at this
        simp [this]
      simp only [navigateToDesktop]
      rw [hfind]

/-- C10 witness: navigating to an id absent from the desktop set, and to the
null id, both leave the world and engine state unchanged. -/
theorem navigateToDesktop_missing_noop_witness :
    navigateToDesktop ⟨[⟨"d1", some 1⟩], "d1"⟩
      (initialEngineState ⟨[⟨"d1", some 1⟩], "d1"⟩) (some "gone")
    = (⟨[⟨"d1", some 1⟩], "d1"⟩, initialEngineState ⟨[⟨"d1", some 1⟩], "d1"⟩) :=
  navigateToDesktop_missing_noop _ _ (some "gone") (by decide)

/-- C6 counterexample: with a walk open (`navigationBuffer = some "c"`,
`historyIndex = 1`, `lastTriggerTime = 700`), a toggle press that switches to
desktop "b" leaves the buffer uncommitted, the history index and the
continuation timer untouched — the walk stays open, contradicting the claim
that every toggle invocation finalizes the walk and clears its state. -/
theorem toggle_leaves_walk_open :
    ((handleDirectDesktopNavigation
        ⟨[⟨"a", some 1⟩, ⟨"b", some 2⟩, ⟨"c", some 3⟩], "a"⟩
        { desktopNumberMap := fun k => if k = 2 then some "b" else none
          desktopHistory := ["b", "c", "a"]
          historyIndex := 1
          lastTriggerTime := 700
          navigationBuffer := some "c" } 2).2.2 = some "b") ∧
    ((handleDirectDesktopNavigation
        ⟨[⟨"a", some 1⟩, ⟨"b", some 2⟩, ⟨"c", some 3⟩], "a"⟩
        { desktopNumberMap := fun k => if k = 2 then some "b" else none
          desktopHistory := ["b", "c", "a"]
          historyIndex := 1
          lastTriggerTime := 700
          navigationBuffer := some "c" } 2).1.navigationBuffer = some "c") ∧
    ((handleDirectDesktopNavigation
        ⟨[⟨"a", some 1⟩, ⟨"b", some 2⟩, ⟨"c", some 3⟩], "a"⟩
        { desktopNumberMap := fun k => if k = 2 then some "b" else none
          desktopHistory := ["b", "c", "a"]
          historyIndex := 1
          lastTriggerTime := 700
          navigationBuffer := some "c" } 2).1.historyIndex = 1) ∧
    ((handleDirectDesktopNavigation
        ⟨[⟨"a", some 1⟩, ⟨"b", some 2⟩, ⟨"c", some 3⟩], "a"⟩
        { desktopNumberMap := fun k => if k = 2 then some "b" else none
          desktopHistory := ["b", "c", "a"]
          historyIndex := 1
          lastTriggerTime := 700
          navigationBuffer := some "c" } 2).1.lastTriggerTime = 700) := by
  decide

/-- C6 amended.  The toggle handler never touches the walk state: every
invocation of `handleDirectDesktopNavigation` returns the navigation buffer,
the history index, the continuation timer and the history exactly as they
were — it neither commits the pending candidate, nor clears the walk state,
nor resets the timer (only the desktop-number map may be rebuilt when the
target desktop vanished). -/
theorem toggle_preserves_walk_state (w : World) (s : EngineState) (n : Nat) :
    (handleDirectDesktopNavigation w s n).1.navigationBuffer = s.navigationBuffer ∧
    (handleDirectDesktopNavigation w s n).1.historyIndex = s.historyIndex ∧
    (handleDirectDesktopNavigation w s n).1.lastTriggerTime = s.lastTriggerTime ∧
    (handleDirectDesktopNavigation w s n).1.desktopHistory = s.desktopHistory := by
  unfold handleDirectDesktopNavigation
  cases s.desktopNumberMap n with
  | none => exact ⟨rfl, rfl, rfl, rfl⟩
  | some t =>
      simp only
      split
      · exact ⟨rfl, rfl, rfl, rfl⟩
      · split
        · exact ⟨rfl, rfl, rfl, rfl⟩
        · split
          · cases hf : findPreviousDesktop w s.desktopHistory w.currentDesktopId with
            | none => simp [hf]
            | some prev =>
                simp only [hf]
                split
                · exact ⟨rfl, rfl, rfl, rfl⟩
                · simp [navigateToDesktop_snd]
          · simp [navigateToDesktop_snd]

/-- C2 counterexample: history ["a","b","c","d"], active "d", a fresh
previous-desktop press previews candidate "c" (the command `some "c"` is
issued); the confirming desktop-changed notification then calls
`addToHistory "c"`, which moves "c" from position 2 to the back:
["a","b","d","c"].  The history does not stay unchanged, contradicting the
suppression claim. -/
theorem suppression_counterexample :
    ((handleHistoryNavigation
        ⟨[⟨"a", some 1⟩, ⟨"b", some 2⟩, ⟨"c", some 3⟩, ⟨"d", some 4⟩], "d"⟩
        { desktopNumberMap := fun _ => none
          desktopHistory := ["a", "b", "c", "d"]
          historyIndex := 0
          lastTriggerTime := 0
          navigationBuffer := none } 1000).2.2 = some "c") ∧
    ((onCurrentDesktopChanged
        (handleHistoryNavigation
          ⟨[⟨"a", some 1⟩, ⟨"b", some 2⟩, ⟨"c", some 3⟩, ⟨"d", some 4⟩], "d"⟩
          { desktopNumberMap := fun _ => none
            desktopHistory := ["a", "b", "c", "d"]
            historyIndex := 0
            lastTriggerTime := 0
            navigationBuffer := none } 1000).1 "c").desktopHistory
      = ["a", "b", "d", "c"]) ∧
    ((onCurrentDesktopChanged
        (handleHistoryNavigation
          ⟨[⟨"a", some 1⟩, ⟨"b", some 2⟩, ⟨"c", some 3⟩, ⟨"d", some 4⟩], "d"⟩
          { desktopNumberMap := fun _ => none
            desktopHistory := ["a", "b", "c", "d"]
            historyIndex := 0
            lastTriggerTime := 0
            navigationBuffer := none } 1000).1 "c").desktopHistory
      ≠ ["a", "b", "c", "d"]) := by
  decide

/-- C2 amended.  The desktop-changed notification that confirms the engine's
own walk switch is not suppressed: on a duplicate-free history containing
the previewed candidate it moves the candidate to the most-recently-used
back (`erase` then append) — the history does not stay unchanged — but it
never duplicates the candidate: the result still holds exactly one copy and
stays duplicate free. -/
theorem visit_during_walk_moves_candidate (s : EngineState) (c : String)
    (hmem : c ∈ s.desktopHistory) (hn : s.desktopHistory.Nodup) :
    (onCurrentDesktopChanged s c).desktopHistory
        = s.desktopHistory.erase c ++ [c] ∧
    (onCurrentDesktopChanged s c).desktopHistory.count c = 1 ∧
    (onCurrentDesktopChanged s c).desktopHistory.Nodup := by
  refine ⟨rfl, ?_, addToHistory_nodup hn c⟩
  show (addToHistory s.desktopHistory c).count c = 1
  unfold addToHistory
  rw [List.count_append, List.count_erase_self,
    List.count_eq_one_of_mem hn hmem]
  simp

/-- C2 amended witness: the concrete walk history ["a","b","c","d"] with
candidate "c". -/
theorem visit_during_walk_moves_candidate_witness :
    (onCurrentDesktopChanged
        { desktopNumberMap := fun _ => none
          desktopHistory := ["a", "b", "c", "d"]
          historyIndex := 1
          lastTriggerTime := 1000
          navigationBuffer := some "c" } "c").desktopHistory
      = ["a", "b", "c", "d"].erase "c" ++ ["c"] ∧
    (onCurrentDesktopChanged
        { desktopNumberMap := fun _ => none
          desktopHistory := ["a", "b", "c", "d"]
          historyIndex := 1
          lastTriggerTime := 1000
          navigationBuffer := some "c" } "c").desktopHistory.count "c" = 1 ∧
    (onCurrentDesktopChanged
        { desktopNumberMap := fun _ => none
          desktopHistory := ["a", "b", "c", "d"]
          historyIndex := 1
          lastTriggerTime := 1000
          navigationBuffer := some "c" } "c").desktopHistory.Nodup :=
  visit_during_walk_moves_candidate _ "c" (by decide) (by decide)

/-- C4 counterexample: history ["a"] and a desktop-set change to the single
new desktop "b" (the active one).  The handler merely filters the history,
so it becomes empty — length 0, not the claimed reset to exactly one entry
holding the current desktop, and the ≥ 1 invariant breaks. -/
theorem desktopsChanged_empties_history :
    (onDesktopsChanged ⟨[⟨"b", some 1⟩], "b"⟩
        { desktopNumberMap := fun _ => none
          desktopHistory := ["a"]
          historyIndex := 0
          lastTriggerTime := 0
          navigationBuffer := none }).desktopHistory = [] ∧
    (onDesktopsChanged ⟨[⟨"b", some 1⟩], "b"⟩
        { desktopNumberMap := fun _ => none
          desktopHistory := ["a"]
          historyIndex := 0
          lastTriggerTime := 0
          navigationBuffer := none }).desktopHistory.length ≠ 1 := by
  decide

/-- C4 amended.  A desktop visit always leaves the history nonempty, and a
fresh previous-desktop press always leaves it nonempty (the current desktop
is appended when absent); but a desktop-set change does not reset the
history to one entry — it filters it to the surviving desktops, which can
leave it with zero or several entries, so length ≥ 1 is not an invariant
across desktop destruction. -/
theorem history_nonempty_amended :
    (∀ (s : EngineState) (id : String),
      (onCurrentDesktopChanged s id).desktopHistory ≠ []) ∧
    (∀ (w : World) (s : EngineState),
      (onDesktopsChanged w s).desktopHistory
        = s.desktopHistory.filter (fun x => desktopExistsS w x)) ∧
    (∀ (w : World) (s : EngineState) (now : Nat),
      ¬ (now - s.lastTriggerTime < continuationDelay) →
      (handleHistoryNavigation w s now).1.desktopHistory ≠ []) := by
  refine ⟨?_, ?_, ?_⟩
  · intro s id
    simp [onCurrentDesktopChanged, addToHistory]
  · intro w s
    rfl
  · intro w s now hfresh
    simp only [handleHistoryNavigation, decide_eq_false hfresh, Bool.false_eq_true,
      if_false]
    split
    · split
      · rw [navigateToDesktop_snd]
        exact List.ne_nil_of_mem (by assumption)
      · exact List.ne_nil_of_mem (by assumption)
    · split
      · rw [navigateToDesktop_snd]
        simp [addToHistory]
      · simp [addToHistory]

/-- C4 amended witness: a visit to "x" on an empty-ish state yields a
nonempty history, and a concrete fresh press leaves history nonempty. -/
theorem history_nonempty_amended_witness :
    (onCurrentDesktopChanged
        { desktopNumberMap := fun _ => none
          desktopHistory := ["a"]
          historyIndex := 0
          lastTriggerTime := 0
          navigationBuffer := none } "x").desktopHistory ≠ [] ∧
    (handleHistoryNavigation ⟨[⟨"a", some 1⟩], "a"⟩
        { desktopNumberMap := fun _ => none
          desktopHistory := ["a"]
          historyIndex := 0
          lastTriggerTime := 0
          navigationBuffer := none } 1000).1.desktopHistory ≠ [] :=
  ⟨history_nonempty_amended.1 _ "x",
   history_nonempty_amended.2.2 _ _ 1000 (by decide)⟩

/-- C9 counterexample: with only the startup desktop "s" in history, the
first ever previous-desktop press resolves a null target
(`getDesktopFromHistory` returns `null` because the history is too short)
and issues no switch command at all — the code does not clamp to the oldest
entry and does not issue a no-op switch to "s"; the world is simply left
unchanged. -/
theorem single_history_press_issues_no_switch :
    ((handleHistoryNavigation ⟨[⟨"s", some 1⟩], "s"⟩
        (initialEngineState ⟨[⟨"s", some 1⟩], "s"⟩) 1000).2.2 = none) ∧
    ((handleHistoryNavigation ⟨[⟨"s", some 1⟩], "s"⟩
        (initialEngineState ⟨[⟨"s", some 1⟩], "s"⟩) 1000).2.2 ≠ some "s") ∧
    ((handleHistoryNavigation ⟨[⟨"s", some 1⟩], "s"⟩
        (initialEngineState ⟨[⟨"s", some 1⟩], "s"⟩) 1000).2.1
      = ⟨[⟨"s", some 1⟩], "s"⟩) := by
  decide

/-- C9 amended.  A previous-desktop press that would walk before the oldest
recorded entry issues no switch command (the target resolves to `null`,
which `desktopExists` rejects) and leaves the world — hence the active
desktop — unchanged; no clamping to the oldest entry happens and no switch
is issued.  The first ever press with only the startup desktop in history is
the special case: only `historyIndex` and the continuation timer advance.
The walk position keeps advancing past the end on further continuing
presses, again issuing no command. -/
theorem walk_past_oldest_no_command :
    (∀ (w : World) (s : EngineState) (x : String) (now : Nat),
      s.desktopHistory = [x] → desktopExistsS w x = true → w.currentDesktopId = x →
      s.navigationBuffer = none → ¬ (now - s.lastTriggerTime < continuationDelay) →
      handleHistoryNavigation w s now
        = ({ s with historyIndex := 1, lastTriggerTime := now }, w, none)) ∧
    (∀ (w : World) (s : EngineState) (now : Nat),
      now - s.lastTriggerTime < continuationDelay →
      (cleanupHistory w s.desktopHistory).length < s.historyIndex + 2 →
      handleHistoryNavigation w s now
        = ({ s with desktopHistory := cleanupHistory w s.desktopHistory,
                    historyIndex := s.historyIndex + 1,
                    lastTriggerTime := now }, w, none)) := by
  constructor
  · intro w s x now hh hex hcur hbuf hfresh
    obtain ⟨m, h, i, t, b⟩ := s
    simp only at hh hbuf
    subst hh hbuf
    have hcl : cleanupHistory w [x] = [x] := by
      refine cleanupHistory_of_all_exist w [x] ?_
      intro y hy
      rw [List.mem_singleton] at hy
      subst hy
      exact hex
    simp only [handleHistoryNavigation, hcl, decide_eq_false hfresh,
      Bool.false_eq_true, if_false, commitNavigationBuffer, hcur,
      List.mem_singleton, if_pos rfl, getDesktopFromHistory]
    simp [desktopExists]
  · intro w s now hcont hlen
    obtain ⟨m, h, i, t, b⟩ := s
    simp only at hlen
    have hget : getDesktopFromHistory (cleanupHistory w h) (i + 1) = none := by
      unfold getDesktopFromHistory
      rw [if_pos]
      omega
    simp only [handleHistoryNavigation, decide_eq_true hcont, if_true, hget]
    simp [desktopExists]

/-- C9 amended witness: the startup world with only desktop "s". -/
theorem walk_past_oldest_no_command_witness :
    handleHistoryNavigation ⟨[⟨"s", some 1⟩], "s"⟩
      (initialEngineState ⟨[⟨"s", some 1⟩], "s"⟩) 1000
    = ({ initialEngineState ⟨[⟨"s", some 1⟩], "s"⟩ with
          historyIndex := 1, lastTriggerTime := 1000 },
       ⟨[⟨"s", some 1⟩], "s"⟩, none) :=
  walk_past_oldest_no_command.1 _ _ "s" 1000 rfl (by decide) rfl rfl (by decide)

/-! ## Spec-side model of the DesktopIndex (for the rebuild refinement claim) -/

/-- The spec's DesktopIndex: two synchronized mappings, slot to identifier
and identifier to slot. -/
structure DesktopIndexSpec where
  slotToId : Nat → Option String
  idToSlot : String → Option Nat

/-- Modelled from the spec: the spec's `DesktopIndex.rebuild` —
"clears both mappings; for each desktop at position i (0-based), computes
slot = hostSlotHint if present and truthy, else i+1; sets slot→identifier
and identifier→slot".  This second, spec-side definition exists to compare
against the implementation's `buildDesktopNumberMap`, which maintains only
the slot→identifier map. -/
def rebuildSpecAux : List Desktop → Nat → DesktopIndexSpec → DesktopIndexSpec
  | [], _, di => di
  | d :: rest, i, di =>
      rebuildSpecAux rest (i + 1)
        { slotToId := fun k => if k = slotOfDesktop d i then some d.id else di.slotToId k,
          idToSlot := fun x => if x = d.id then some (slotOfDesktop d i) else di.idToSlot x }

/-- Modelled from the spec: the full rebuild starting from two empty maps. -/
def rebuildSpecIndex (desktops : List Desktop) : DesktopIndexSpec :=
  rebuildSpecAux desktops 0 ⟨fun _ => none, fun _ => none⟩

/-- No desktop in `l` (starting at position `i`) computes slot `k`. -/
def slotFreeFrom : List Desktop → Nat → Nat → Bool
  | [], _, _ => true
  | d :: rest, i, k => (slotOfDesktop d i != k) && slotFreeFrom rest (i + 1) k

/-- If no desktop in `l` computes slot `k`, the build loop leaves `k`'s
entry at whatever the accumulator held. -/
theorem buildMapAux_of_free (l : List Desktop) :
    ∀ (i : Nat) (m : Nat → Option String) (k : Nat),
      slotFreeFrom l i k = true → buildMapAux l i m k = m k := by
  induction l with
  | nil => intro i m k _; rfl
  | cons d rest ih =>
      intro i m k hfree
      simp only [slotFreeFrom, Bool.and_eq_true, bne_iff_ne, ne_eq] at hfree
      obtain ⟨hd, hrest⟩ := hfree
      rw [buildMapAux, ih (i + 1) _ k hrest]
      simp [Ne.symm hd]

/-- The desktop whose computed slot is `k`, with no later desktop computing
`k` again, owns the final map entry for `k` (last write wins). -/
theorem buildMapAux_lastWrite (l1 : List Desktop) :
    ∀ (d : Desktop) (l2 : List Desktop) (i : Nat) (m : Nat → Option String) (k : Nat),
      slotOfDesktop d (i + l1.length) = k →
      slotFreeFrom l2 (i + l1.length + 1) k = true →
      buildMapAux (l1 ++ d :: l2) i m k = some d.id := by
  induction l1 with
  | nil =>
      intro d l2 i m k hslot hfree
      simp only [List.length_nil, Nat.add_zero] at hslot hfree
      rw [List.nil_append, buildMapAux,
        buildMapAux_of_free l2 (i + 1) _ k hfree]
      simp [hslot]
  | cons e rest ih =>
      intro d l2 i m k hslot hfree
      simp only [List.length_cons] at hslot hfree
      rw [List.cons_append, buildMapAux]
      refine ih d l2 (i + 1) _ k ?_ ?_
      · rw [show i + 1 + rest.length = i + (rest.length + 1) by omega]
        exact hslot
      · rw [show i + 1 + rest.length + 1 = i + (rest.length + 1) + 1 by omega]
        exact hfree

/-- C8 counterexample: for the input list [("d1" hint 5), ("d2" hint 5)],
the spec's rebuild records identifier→slot entries for both desktops, but
the implementation's entire post-rebuild state is the single slot→identifier
map {5 ↦ "d2"}: no identifier-to-slot mapping is set at all, and no record
of "d1" survives anywhere — refuting the claim that rebuild "sets both the
slot-to-identifier and the identifier-to-slot mapping for every desktop". -/
theorem rebuild_no_reverse_map_counterexample :
    (rebuildSpecIndex [⟨"d1", some 5⟩, ⟨"d2", some 5⟩]).idToSlot "d1" = some 5 ∧
    (rebuildSpecIndex [⟨"d1", some 5⟩, ⟨"d2", some 5⟩]).idToSlot "d2" = some 5 ∧
    buildDesktopNumberMap [⟨"d1", some 5⟩, ⟨"d2", some 5⟩]
      = (fun k => if k = 5 then some "d2" else none) := by
  refine ⟨by decide, by decide, ?_⟩
  funext k
  simp only [buildDesktopNumberMap, buildMapAux, slotOfDesktop]
  norm_num
  split <;> rfl

/-- C8 amended.  The implementation's rebuild (`buildDesktopNumberMap`)
assigns the desktop at 0-based position i the slot given by its host hint
when present and truthy, else i+1 (`slotOfDesktop`), and sets only the
slot-to-identifier mapping — there is no identifier-to-slot mapping in the
code.  Within one rebuild pass the last desktop computing a given slot wins
that slot's entry, and the empty input list yields the empty map. -/
theorem buildDesktopNumberMap_amended :
    (∀ k, buildDesktopNumberMap [] k = none) ∧
    (∀ (l1 : List Desktop) (d : Desktop) (l2 : List Desktop) (k : Nat),
      slotOfDesktop d l1.length = k →
      slotFreeFrom l2 (l1.length + 1) k = true →
      buildDesktopNumberMap (l1 ++ d :: l2) k = some d.id) := by
  constructor
  · intro k
    rfl
  · intro l1 d l2 k hslot hfree
    unfold buildDesktopNumberMap
    refine buildMapAux_lastWrite l1 d l2 0 _ k ?_ ?_
    · rw [Nat.zero_add]
      exact hslot
    · rw [Nat.zero_add]
      exact hfree

/-- C8 amended witness: ["a" (hint 7), "b" (hint 7), "c" no hint]: desktop
"b" is the last writer of slot 7 and owns it; "c" falls back to its
positional slot 3; the empty list maps nothing. -/
theorem buildDesktopNumberMap_amended_witness :
    buildDesktopNumberMap [⟨"a", some 7⟩, ⟨"b", some 7⟩, ⟨"c", none⟩] 7 = some "b" ∧
    buildDesktopNumberMap [⟨"a", some 7⟩, ⟨"b", some 7⟩, ⟨"c", none⟩] 3 = some "c" ∧
    buildDesktopNumberMap [] 3 = none :=
  ⟨buildDesktopNumberMap_amended.2 [⟨"a", some 7⟩] ⟨"b", some 7⟩ [⟨"c", none⟩] 7
      (by decide) (by decide),
   buildDesktopNumberMap_amended.2 [⟨"a", some 7⟩, ⟨"b", some 7⟩] ⟨"c", none⟩ [] 3
      (by decide) (by decide),
   buildDesktopNumberMap_amended.1 3⟩

/-- A continuing press whose incremented index still lands inside the
(cleanup-stable) history: issues the switch to that entry. -/
theorem continuing_press_some (w : World) (s : EngineState) (now : Nat) (tgt : String)
    (hcl : cleanupHistory w s.desktopHistory = s.desktopHistory)
    (hcont : now - s.lastTriggerTime < continuationDelay)
    (hget : getDesktopFromHistory s.desktopHistory (s.historyIndex + 1) = some tgt)
    (hext : desktopExistsS w tgt = true) :
    handleHistoryNavigation w s now =
      ({ s with historyIndex := s.historyIndex + 1, lastTriggerTime := now,
                navigationBuffer := some tgt },
       { w with currentDesktopId := tgt }, some tgt) := by
  obtain ⟨m, h, idx, t0, buf⟩ := s
  simp only at hcl hcont hget
  simp only [handleHistoryNavigation, hcl, decide_eq_true hcont, if_true, hget]
  have hdec : desktopExists w (some tgt) = true := hext
  rw [if_pos hdec, navigateToDesktop_exists w _ tgt hext]

/-- A continuing press whose incremented index walks past the oldest entry:
no switch command, only the index and the timer advance. -/
theorem continuing_press_none (w : World) (s : EngineState) (now : Nat)
    (hcl : cleanupHistory w s.desktopHistory = s.desktopHistory)
    (hcont : now - s.lastTriggerTime < continuationDelay)
    (hget : getDesktopFromHistory s.desktopHistory (s.historyIndex + 1) = none) :
    handleHistoryNavigation w s now =
      ({ s with historyIndex := s.historyIndex + 1, lastTriggerTime := now }, w, none) := by
  obtain ⟨m, h, idx, t0, buf⟩ := s
  simp only at hcl hcont hget
  simp only [handleHistoryNavigation, hcl, decide_eq_true hcont, if_true, hget]
  simp [desktopExists]

/-- C1.  Walk-back ordering: with history [A, B, C, D], D active, buffer
empty and all four desktops existing, a fresh previous-desktop press issues
a switch to C; a second press within the continuation delay issues a switch
to B; a third, within delay, to A; the fourth, within delay, issues no
command and stays at A.  Each issued switch is confirmed by the
desktop-changed event (`prevRound`).  The active desktop after the four
presses is C, B, A, A — with the four identifiers distinct, the walk never
lands back on D. -/
theorem walkBack_ordering (w : World) (a b c d : String) (s : EngineState)
    (t1 t2 t3 t4 : Nat)
    (hab : a ≠ b) (hac : a ≠ c) (had : a ≠ d)
    (hbc : b ≠ c) (hbd : b ≠ d) (hcd : c ≠ d)
    (hea : desktopExistsS w a = true) (heb : desktopExistsS w b = true)
    (hec : desktopExistsS w c = true) (hed : desktopExistsS w d = true)
    (hh : s.desktopHistory = [a, b, c, d])
    (hcur : w.currentDesktopId = d)
    (hbuf : s.navigationBuffer = none)
    (ht1 : ¬ (t1 - s.lastTriggerTime < continuationDelay))
    (ht2 : t2 - t1 < continuationDelay)
    (ht3 : t3 - t2 < continuationDelay)
    (ht4 : t4 - t3 < continuationDelay) :
    ((prevRound t1 (w, s)).2 = some c) ∧
    ((prevRound t2 (prevRound t1 (w, s)).1).2 = some b) ∧
    ((prevRound t3 (prevRound t2 (prevRound t1 (w, s)).1).1).2 = some a) ∧
    ((prevRound t4 (prevRound t3 (prevRound t2 (prevRound t1 (w, s)).1).1).1).2
      = none) ∧
    ((prevRound t1 (w, s)).1.1.currentDesktopId = c) ∧
    ((prevRound t2 (prevRound t1 (w, s)).1).1.1.currentDesktopId = b) ∧
    ((prevRound t3 (prevRound t2 (prevRound t1 (w, s)).1).1).1.1.currentDesktopId
      = a) ∧
    ((prevRound t4 (prevRound t3 (prevRound t2 (prevRound t1 (w, s)).1).1).1).1.1.currentDesktopId
      = a) := by
  obtain ⟨m, h, idx, t0, buf⟩ := s
  simp only at hh hbuf ht1
  subst hh hbuf
  have hex4 : ∀ (l : List String), (∀ y ∈ l, desktopExistsS w y = true) →
      cleanupHistory w l = l := cleanupHistory_of_all_exist w
  -- press 1 (fresh): target c
  have e1 : handleHistoryNavigation w ⟨m, [a, b, c, d], idx, t0, none⟩ t1 =
      (⟨m, [a, b, c, d], 1, t1, some c⟩, { w with currentDesktopId := c }, some c) := by
    have hcl : cleanupHistory w [a, b, c, d] = [a, b, c, d] := by
      refine hex4 _ ?_
      intro y hy
      simp only [List.mem_cons, List.not_mem_nil, or_false] at hy
      rcases hy with rfl | rfl | rfl | rfl <;> assumption
    simp only [handleHistoryNavigation, hcl, decide_eq_false ht1, Bool.false_eq_true,
      if_false, commitNavigationBuffer, hcur]
    have hmem : d ∈ [a, b, c, d] := by simp
    rw [if_pos hmem]
    have hget : getDesktopFromHistory [a, b, c, d] 1 = some c := rfl
    simp only [hget]
    have hdec : desktopExists w (some c) = true := hec
    rw [if_pos hdec, navigateToDesktop_exists w _ c hec]
  have haddc : addToHistory [a, b, c, d] c = [a, b, d, c] := by
    simp [addToHistory, List.erase_cons, beq_eq_false_iff_ne.mpr hac,
      beq_eq_false_iff_ne.mpr hbc]
  have r1 : prevRound t1 (w, ⟨m, [a, b, c, d], idx, t0, none⟩) =
      (({ w with currentDesktopId := c }, ⟨m, [a, b, d, c], 1, t1, some c⟩), some c) := by
    simp only [prevRound, e1, onCurrentDesktopChanged]
    simp [haddc]
  -- press 2 (continuing): target b
  have e2 : handleHistoryNavigation { w with currentDesktopId := c }
        ⟨m, [a, b, d, c], 1, t1, some c⟩ t2 =
      (⟨m, [a, b, d, c], 2, t2, some b⟩,
       { w with currentDesktopId := b }, some b) := by
    have := continuing_press_some { w with currentDesktopId := c }
      ⟨m, [a, b, d, c], 1, t1, some c⟩ t2 b
      (hex4 _ (by
        intro y hy
        simp only [List.mem_cons, List.not_mem_nil, or_false] at hy
        rcases hy with rfl | rfl | rfl | rfl <;> assumption)) ht2 rfl heb
    simpa using this
  have haddb : addToHistory [a, b, d, c] b = [a, d, c, b] := by
    simp [addToHistory, List.erase_cons, beq_eq_false_iff_ne.mpr hab]
  have r2 : prevRound t2 ({ w with currentDesktopId := c },
        ⟨m, [a, b, d, c], 1, t1, some c⟩) =
      (({ w with currentDesktopId := b }, ⟨m, [a, d, c, b], 2, t2, some b⟩), some b) := by
    simp only [prevRound, e2, onCurrentDesktopChanged]
    simp [haddb]
  -- press 3 (continuing): target a
  have e3 : handleHistoryNavigation { w with currentDesktopId := b }
        ⟨m, [a, d, c, b], 2, t2, some b⟩ t3 =
      (⟨m, [a, d, c, b], 3, t3, some a⟩,
       { w with currentDesktopId := a }, some a) := by
    have := continuing_press_some { w with currentDesktopId := b }
      ⟨m, [a, d, c, b], 2, t2, some b⟩ t3 a
      (hex4 _ (by
        intro y hy
        simp only [List.mem_cons, List.not_mem_nil, or_false] at hy
        rcases hy with rfl | rfl | rfl | rfl <;> assumption)) ht3 rfl hea
    simpa using this
  have hadda : addToHistory [a, d, c, b] a = [d, c, b, a] := by
    simp [addToHistory, List.erase_cons]
  have r3 : prevRound t3 ({ w with currentDesktopId := b },
        ⟨m, [a, d, c, b], 2, t2, some b⟩) =
      (({ w with currentDesktopId := a }, ⟨m, [d, c, b, a], 3, t3, some a⟩), some a) := by
    simp only [prevRound, e3, onCurrentDesktopChanged]
    simp [hadda]
  -- press 4 (continuing): past the oldest entry, no command
  have e4 : handleHistoryNavigation { w with currentDesktopId := a }
        ⟨m, [d, c, b, a], 3, t3, some a⟩ t4 =
      (⟨m, [d, c, b, a], 4, t4, some a⟩,
       { w with currentDesktopId := a }, none) := by
    have := continuing_press_none { w with currentDesktopId := a }
      ⟨m, [d, c, b, a], 3, t3, some a⟩ t4
      (hex4 _ (by
        intro y hy
        simp only [List.mem_cons, List.not_mem_nil, or_false] at hy
        rcases hy with rfl | rfl | rfl | rfl <;> assumption)) ht4 rfl
    simpa using this
  have r4 : prevRound t4 ({ w with currentDesktopId := a },
        ⟨m, [d, c, b, a], 3, t3, some a⟩) =
      (({ w with currentDesktopId := a }, ⟨m, [d, c, b, a], 4, t4, some a⟩), none) := by
    simp only [prevRound, e4]
  rw [r1, r2, r3, r4]
  simp


/-- C1 witness: the spec's concrete scenario d1, d2, d3, d4 with rapid
presses at 1000, 1100, 1200, 1300 ms. -/
theorem walkBack_ordering_witness :
    ((prevRound 1000 (⟨[⟨"d1", some 1⟩, ⟨"d2", some 2⟩, ⟨"d3", some 3⟩, ⟨"d4", some 4⟩], "d4"⟩,
        ⟨fun _ => none, ["d1", "d2", "d3", "d4"], 0, 0, none⟩)).2 = some "d3") ∧
    ((prevRound 1100 (prevRound 1000 (⟨[⟨"d1", some 1⟩, ⟨"d2", some 2⟩, ⟨"d3", some 3⟩, ⟨"d4", some 4⟩], "d4"⟩,
        ⟨fun _ => none, ["d1", "d2", "d3", "d4"], 0, 0, none⟩)).1).2 = some "d2") ∧
    ((prevRound 1200 (prevRound 1100 (prevRound 1000 (⟨[⟨"d1", some 1⟩, ⟨"d2", some 2⟩, ⟨"d3", some 3⟩, ⟨"d4", some 4⟩], "d4"⟩,
        ⟨fun _ => none, ["d1", "d2", "d3", "d4"], 0, 0, none⟩)).1).1).2 = some "d1") ∧
    ((prevRound 1300 (prevRound 1200 (prevRound 1100 (prevRound 1000 (⟨[⟨"d1", some 1⟩, ⟨"d2", some 2⟩, ⟨"d3", some 3⟩, ⟨"d4", some 4⟩], "d4"⟩,
        ⟨fun _ => none, ["d1", "d2", "d3", "d4"], 0, 0, none⟩)).1).1).1).2 = none) ∧
    ((prevRound 1000 (⟨[⟨"d1", some 1⟩, ⟨"d2", some 2⟩, ⟨"d3", some 3⟩, ⟨"d4", some 4⟩], "d4"⟩,
        ⟨fun _ => none, ["d1", "d2", "d3", "d4"], 0, 0, none⟩)).1.1.currentDesktopId = "d3") ∧
    ((prevRound 1100 (prevRound 1000 (⟨[⟨"d1", some 1⟩, ⟨"d2", some 2⟩, ⟨"d3", some 3⟩, ⟨"d4", some 4⟩], "d4"⟩,
        ⟨fun _ => none, ["d1", "d2", "d3", "d4"], 0, 0, none⟩)).1).1.1.currentDesktopId = "d2") ∧
    ((prevRound 1200 (prevRound 1100 (prevRound 1000 (⟨[⟨"d1", some 1⟩, ⟨"d2", some 2⟩, ⟨"d3", some 3⟩, ⟨"d4", some 4⟩], "d4"⟩,
        ⟨fun _ => none, ["d1", "d2", "d3", "d4"], 0, 0, none⟩)).1).1).1.1.currentDesktopId = "d1") ∧
    ((prevRound 1300 (prevRound 1200 (prevRound 1100 (prevRound 1000 (⟨[⟨"d1", some 1⟩, ⟨"d2", some 2⟩, ⟨"d3", some 3⟩, ⟨"d4", some 4⟩], "d4"⟩,
        ⟨fun _ => none, ["d1", "d2", "d3", "d4"], 0, 0, none⟩)).1).1).1).1.1.currentDesktopId = "d1") :=
  walkBack_ordering
    ⟨[⟨"d1", some 1⟩, ⟨"d2", some 2⟩, ⟨"d3", some 3⟩, ⟨"d4", some 4⟩], "d4"⟩
    "d1" "d2" "d3" "d4"
    ⟨fun _ => none, ["d1", "d2", "d3", "d4"], 0, 0, none⟩
    1000 1100 1200 1300
    (by decide) (by decide) (by decide) (by decide) (by decide) (by decide)
    (by decide) (by decide) (by decide) (by decide)
    rfl rfl rfl (by decide) (by decide) (by decide) (by decide)


/-- C5.  Toggle alternation: with the current desktop A, history ending in
[..., Z, A] (Z, A distinct existing desktops with non-empty — i.e. JS-truthy
— identifiers, neither in the earlier prefix), and the toggle slot mapped to
Z, repeatedly pressing the toggle shortcut — each switch confirmed by the
desktop-changed event (`toggleRound`) — alternates indefinitely: after every
odd number of presses the active desktop is Z, after every even number it is
A. -/
theorem toggle_alternation (w : World) (s : EngineState) (slot : Nat)
    (z a : String) (p : List String)
    (hza : z ≠ a) (hzs : z ≠ "") (has : a ≠ "")
    (hz : desktopExistsS w z = true) (ha : desktopExistsS w a = true)
    (hmap : s.desktopNumberMap slot = some z)
    (hh : s.desktopHistory = p ++ [z, a])
    (hcur : w.currentDesktopId = a)
    (hzp : z ∉ p) (hap : a ∉ p) :
    ∀ n : Nat,
      ((toggleRound slot)^[2 * n + 1] (w, s)).1.currentDesktopId = z ∧
      ((toggleRound slot)^[2 * n + 2] (w, s)).1.currentDesktopId = a := by
  obtain ⟨m, h, i, t, b⟩ := s
  simp only at hmap hh
  subst hh
  have haddz : addToHistory (p ++ [z, a]) z = p ++ [a, z] := by
    unfold addToHistory
    rw [List.erase_append_right _ hzp]
    simp [List.erase_cons]
  have hadda : addToHistory (p ++ [a, z]) a = p ++ [z, a] := by
    unfold addToHistory
    rw [List.erase_append_right _ hap]
    simp [List.erase_cons, beq_eq_false_iff_ne.mpr (Ne.symm hza)]
  have step1 : toggleRound slot (w, ⟨m, p ++ [z, a], i, t, b⟩) =
      ({ w with currentDesktopId := z }, ⟨m, p ++ [a, z], i, t, b⟩) := by
    have e : handleDirectDesktopNavigation w ⟨m, p ++ [z, a], i, t, b⟩ slot =
        (⟨m, p ++ [z, a], i, t, b⟩, { w with currentDesktopId := z }, some z) := by
      simp only [handleDirectDesktopNavigation, hmap]
      rw [if_neg hzs, hz]
      simp only [Bool.not_true, Bool.false_eq_true, if_false, hcur]
      rw [if_neg (fun he => hza he.symm), navigateToDesktop_exists w _ z hz]
    simp only [toggleRound, e, onCurrentDesktopChanged]
    simp [haddz]
  have step2 : toggleRound slot
        ({ w with currentDesktopId := z }, ⟨m, p ++ [a, z], i, t, b⟩) = (w, ⟨m, p ++ [z, a], i, t, b⟩) := by
    have hfind : findPreviousDesktop { w with currentDesktopId := z }
        (p ++ [a, z]) z = some a := by
      unfold findPreviousDesktop
      rw [List.reverse_append]
      simp only [List.reverse_cons, List.reverse_nil, List.nil_append,
        List.cons_append, List.singleton_append]
      rw [List.find?_cons_of_neg _ (by simp), List.find?_cons_of_pos _ (by
        simp only [Bool.and_eq_true, bne_iff_ne, ne_eq]
        exact ⟨Ne.symm hza, ha⟩)]
    have e : handleDirectDesktopNavigation { w with currentDesktopId := z }
        ⟨m, p ++ [a, z], i, t, b⟩ slot =
        (⟨m, p ++ [a, z], i, t, b⟩, { w with currentDesktopId := a }, some a) := by
      simp only [handleDirectDesktopNavigation, hmap]
      rw [if_neg hzs, show desktopExistsS { w with currentDesktopId := z } z = true from hz]
      simp only [Bool.not_true, Bool.false_eq_true, if_false]
      simp only [if_true, hfind]
      rw [if_neg has, navigateToDesktop_exists { w with currentDesktopId := z } _ a ha]
    simp only [toggleRound, e, onCurrentDesktopChanged, Prod.mk.injEq]
    constructor
    · rw [← hcur]
    · simp [hadda]
  have two_step : (toggleRound slot) ((toggleRound slot) (w, ⟨m, p ++ [z, a], i, t, b⟩)) =
      (w, ⟨m, p ++ [z, a], i, t, b⟩) := by
    rw [step1, step2]
  have iter_even : ∀ n : Nat, (toggleRound slot)^[2 * n] (w, ⟨m, p ++ [z, a], i, t, b⟩) =
      (w, ⟨m, p ++ [z, a], i, t, b⟩) := by
    intro n
    induction n with
    | zero => rfl
    | succ k ih =>
        rw [show 2 * (k + 1) = 2 * k + 1 + 1 by omega,
          Function.iterate_succ_apply', Function.iterate_succ_apply', ih, step1, step2]
  intro n
  have hodd : (toggleRound slot)^[2 * n + 1] (w, ⟨m, p ++ [z, a], i, t, b⟩) =
      ({ w with currentDesktopId := z }, ⟨m, p ++ [a, z], i, t, b⟩) := by
    rw [Function.iterate_succ_apply', iter_even, step1]
  constructor
  · rw [hodd]
  · rw [Function.iterate_succ_apply', hodd, step2]
    exact hcur


/-- C5 witness: desktops "z", "a", history ["z", "a"], active "a", toggle
slot 1 mapped to "z", instantiated at n = 1 (presses 3 and 4). -/
theorem toggle_alternation_witness :
    ((toggleRound 1)^[2 * 1 + 1]
        (⟨[⟨"z", some 1⟩, ⟨"a", some 2⟩], "a"⟩,
         ⟨fun k => if k = 1 then some "z" else none, ["z", "a"], 0, 0, none⟩)).1.currentDesktopId
      = "z" ∧
    ((toggleRound 1)^[2 * 1 + 2]
        (⟨[⟨"z", some 1⟩, ⟨"a", some 2⟩], "a"⟩,
         ⟨fun k => if k = 1 then some "z" else none, ["z", "a"], 0, 0, none⟩)).1.currentDesktopId
      = "a" :=
  toggle_alternation
    ⟨[⟨"z", some 1⟩, ⟨"a", some 2⟩], "a"⟩
    ⟨fun k => if k = 1 then some "z" else none, ["z", "a"], 0, 0, none⟩
    1 "z" "a" []
    (by decide) (by decide) (by decide) (by decide) (by decide)
    rfl rfl rfl (by decide) (by decide) 1

